import Mathlib

/-!
Shallow embedding of the performance analysis and load-testing engine of
`src/utils/performance-testing.ts` (class `PerformanceTesting`), together with
proofs of the specified properties.

Conventions of the embedding:
* JavaScript numbers are modelled as `ℚ` (all arithmetic in this module is
  exact: additions, subtractions, divisions of millisecond timings and scores).
* Optional fields (`firstContentfulPaint?: number` etc.) are `Option ℚ`.
* JavaScript truthiness tests on optional numbers (`if (x)`) hold exactly when
  the field is present and non-zero; this is the `truthy` predicate below.
* `async` methods that can reject are modelled with `Except String`; the
  browser-driven parts (navigation, CDP session, timing entries) are passed in
  as explicit environments so the data flow of the TypeScript code is preserved.
-/

set_option autoImplicit false

/-- `webVitals` record captured by the telemetry collector
(interface `PerformanceMetrics.webVitals`); every field is optional. -/
structure WebVitals where
  firstContentfulPaint : Option ℚ := none
  largestContentfulPaint : Option ℚ := none
  domContentLoaded : Option ℚ := none
  loadComplete : Option ℚ := none
  firstByte : Option ℚ := none
deriving Repr, DecidableEq

/-- `slowestResource` sub-record of `ResourceMetrics`. -/
structure SlowestResource where
  name : String
  duration : ℚ
deriving Repr, DecidableEq

/-- `resources` record of `PerformanceMetrics`; `resourceTypes` is the
initiator-type count map, modelled as an association list. -/
structure ResourceMetrics where
  totalResources : ℕ
  totalSize : ℚ
  slowestResource : SlowestResource
  resourceTypes : List (String × ℕ)
deriving Repr, DecidableEq

/-- Optional `memory` record of `PerformanceMetrics`. -/
structure MemorySnapshot where
  usedJSHeapSize : ℚ
  totalJSHeapSize : ℚ
  jsHeapSizeLimit : ℚ
deriving Repr, DecidableEq

/-- Interface `PerformanceMetrics`. -/
structure PerformanceMetrics where
  webVitals : WebVitals
  resources : ResourceMetrics
  memory : Option MemorySnapshot
deriving Repr, DecidableEq

/-- Interface `PerformanceScores`. -/
structure PerformanceScores where
  overall : ℚ
  firstContentfulPaint : ℚ
  largestContentfulPaint : ℚ
  loadTime : ℚ
  resourceEfficiency : ℚ
deriving Repr, DecidableEq

/-- Interface `NetworkConditions`. -/
structure NetworkConditions where
  downloadThroughput : ℚ
  uploadThroughput : ℚ
  latency : ℚ
deriving Repr, DecidableEq

/-- Interface `PerformanceAnalysis`. -/
structure PerformanceAnalysis where
  url : String
  timestamp : String
  metrics : PerformanceMetrics
  scores : PerformanceScores
  recommendations : List String
  networkConditions : Option NetworkConditions := none
deriving Repr, DecidableEq

/-- `summary` record of `LoadTestResults`. -/
structure LoadTestSummary where
  totalRequests : ℕ
  successfulRequests : ℕ
  failedRequests : ℕ
  successRate : ℚ
  averageResponseTime : ℚ
  minResponseTime : ℚ
  maxResponseTime : ℚ
deriving Repr, DecidableEq

/-- Interface `LoadTestResults`. -/
structure LoadTestResults where
  summary : LoadTestSummary
  errors : List String
  recommendations : List String
deriving Repr, DecidableEq

/-- JavaScript truthiness of an optional number: present and non-zero
(`undefined` and `0` are falsy). -/
def truthy : Option ℚ → Bool
  | none => false
  | some v => v != 0

/-- FCP branch of `calculatePerformanceScores` (lines 227-236): the score the
`firstContentfulPaint` field of the result record ends up with. -/
def scoreFCP (fcp : Option ℚ) : ℚ :=
  if truthy fcp then
    let v := fcp.getD 0
    if v ≤ 1800 then 100 else if v ≤ 3000 then 75 else if v ≤ 4200 then 50 else 25
  else 0

/-- LCP branch of `calculatePerformanceScores` (lines 238-245). -/
def scoreLCP (lcp : Option ℚ) : ℚ :=
  if truthy lcp then
    let v := lcp.getD 0
    if v ≤ 2500 then 100 else if v ≤ 4000 then 75 else 25
  else 0

/-- Load-time branch of `calculatePerformanceScores` (lines 247-253). -/
def scoreLoadTime (lc : Option ℚ) : ℚ :=
  if truthy lc then
    let v := lc.getD 0
    if v ≤ 2000 then 100 else if v ≤ 4000 then 75 else if v ≤ 6000 then 50 else 25
  else 0

/-- Resource-efficiency branch of `calculatePerformanceScores` (lines 255-261);
unguarded: `totalResources` is always present. -/
def scoreResources (n : ℕ) : ℚ :=
  if n ≤ 50 then 100 else if n ≤ 100 then 75 else if n ≤ 150 then 50 else 25

/-- `calculatePerformanceScores` (lines 216-272).  The overall score averages
`Object.values(scores).filter(s => s > 0)`; the value list starts with the
(still zero) `overall` field itself, exactly as `Object.values` enumerates the
record in insertion order. -/
def calculatePerformanceScores (metrics : PerformanceMetrics) : PerformanceScores :=
  let f := scoreFCP metrics.webVitals.firstContentfulPaint
  let l := scoreLCP metrics.webVitals.largestContentfulPaint
  let lt := scoreLoadTime metrics.webVitals.loadComplete
  let re := scoreResources metrics.resources.totalResources
  let validScores := [(0 : ℚ), f, l, lt, re].filter (fun s => decide (0 < s))
  let overall :=
    if 0 < validScores.length then validScores.sum / (validScores.length : ℚ) else 0
  { overall := overall
    firstContentfulPaint := f
    largestContentfulPaint := l
    loadTime := lt
    resourceEfficiency := re }

/-- TTFB gate of `generateRecommendations`: `metrics.webVitals.firstByte > 600`
is false when `firstByte` is `undefined`. -/
def firstByteSlow : Option ℚ → Bool
  | none => false
  | some v => 600 < v

/-- `generateRecommendations` (lines 274-310); the pushes are rendered as
concatenation of the conditional singleton blocks in source order. -/
def generateRecommendations (metrics : PerformanceMetrics)
    (scores : PerformanceScores) : List String :=
  (if scores.firstContentfulPaint < 75 then
    ["Optimize First Contentful Paint by reducing render-blocking resources"] else []) ++
  (if scores.largestContentfulPaint < 75 then
    ["Improve Largest Contentful Paint by optimizing main content loading"] else []) ++
  (if 100 < metrics.resources.totalResources then
    ["Reduce number of resources (currently " ++ toString metrics.resources.totalResources ++ ")"] else []) ++
  (if 2 * 1024 * 1024 < metrics.resources.totalSize then
    ["Optimize resource sizes - total transfer size is high"] else []) ++
  (if firstByteSlow metrics.webVitals.firstByte then
    ["Improve server response time (TTFB)"] else [])

/-! ### Telemetry collector (`analyzePagePerformance`, lines 9-114)

The in-page promise races the `PerformanceObserver` callback against a fixed
5000 ms `setTimeout` fallback.  The browser side is modelled as an
`ObserverEnv`: the list of observer callback invocations (each a delivery time
in ms together with the delivered timing entries — empty list if no timing
entry ever fires), the resource-timing entries, and the optional memory
counters.  The promise resolves with whichever of the two arrives first. -/

/-- One timing entry as seen by the observer callback: `entryType`, `name`,
`startTime` and the navigation-timing fields (zero-defaulted for non-navigation
entries, which never read them). -/
structure PerfEntry where
  entryType : String
  name : String
  startTime : ℚ
  domContentLoadedEventStart : ℚ := 0
  domContentLoadedEventEnd : ℚ := 0
  loadEventStart : ℚ := 0
  loadEventEnd : ℚ := 0
  requestStart : ℚ := 0
  responseStart : ℚ := 0
deriving Repr, DecidableEq

/-- One resource-timing entry (lines 50-68). -/
structure ResourceEntry where
  name : String
  requestStart : ℚ
  responseEnd : ℚ
  initiatorType : String
  transferSize : ℚ
deriving Repr, DecidableEq

/-- The `entries.forEach` loop building the `vitals` object (lines 23-39). -/
def collectVitals (entries : List PerfEntry) : WebVitals :=
  entries.foldl (fun v e =>
    let v := if e.entryType = "navigation" then
      { v with
        domContentLoaded := some (e.domContentLoadedEventEnd - e.domContentLoadedEventStart)
        loadComplete := some (e.loadEventEnd - e.loadEventStart)
        firstByte := some (e.responseStart - e.requestStart) }
      else v
    let v := if e.name = "first-contentful-paint" then
      { v with firstContentfulPaint := some e.startTime } else v
    if e.name = "largest-contentful-paint" then
      { v with largestContentfulPaint := some e.startTime } else v)
    {}

/-- Increment of the `resourceTypes[type]` counter (lines 60-62). -/
def bumpType (m : List (String × ℕ)) (t : String) : List (String × ℕ) :=
  match m.lookup t with
  | some n => m.map (fun p => if p.1 = t then (p.1, n + 1) else p)
  | none => m ++ [(t, 1)]

/-- The `resources.forEach` aggregation loop (lines 43-68); `initiatorType`
falls back to `"other"` when falsy (empty), and `transferSize` is added only
when truthy (non-zero). -/
def collectResources (resources : List ResourceEntry) : ResourceMetrics :=
  resources.foldl (fun acc r =>
    let duration := r.responseEnd - r.requestStart
    let acc := if acc.slowestResource.duration < duration then
      { acc with slowestResource := { name := r.name, duration := duration } } else acc
    let t := if r.initiatorType = "" then "other" else r.initiatorType
    let acc := { acc with resourceTypes := bumpType acc.resourceTypes t }
    if r.transferSize != 0 then { acc with totalSize := acc.totalSize + r.transferSize } else acc)
    { totalResources := resources.length
      totalSize := 0
      slowestResource := { name := "", duration := 0 }
      resourceTypes := [] }

/-- The metrics resolved by the `setTimeout` fallback branch (lines 88-100). -/
def fallbackMetrics : PerformanceMetrics :=
  { webVitals := {}
    resources :=
      { totalResources := 0
        totalSize := 0
        slowestResource := { name := "", duration := 0 }
        resourceTypes := [] }
    memory := none }

/-- Browser-side environment of one `page.evaluate` metrics capture:
`batches` are the observer callback invocations in delivery order (time in ms,
entries delivered); an empty list means no timing entry ever fires. -/
structure ObserverEnv where
  batches : List (ℚ × List PerfEntry)
  resources : List ResourceEntry
  memory : Option MemorySnapshot
deriving Repr, DecidableEq

/-- The in-page promise of `analyzePagePerformance` (lines 16-102): the first
observer callback (if it arrives before 5000 ms) resolves with the collected
vitals and resource aggregation; otherwise the 5000 ms fallback timeout
resolves with `fallbackMetrics`.  Returns (resolution time, metrics). -/
def collectMetrics (env : ObserverEnv) : ℚ × PerformanceMetrics :=
  match env.batches with
  | [] => (5000, fallbackMetrics)
  | (t, entries) :: _ =>
    if t < 5000 then
      (t, { webVitals := collectVitals entries
            resources := collectResources env.resources
            memory := env.memory })
    else (5000, fallbackMetrics)

/-! ### Network condition controller (`testWithThrottling`, lines 119-147)

The CDP session's emulated network conditions are the explicit state.  The
analysis pass is an environment `analyze` mapping the network state it runs
under to success or a thrown error.  The TypeScript body is straight-line
`await` code with no try/finally: a rejection of the analysis propagates
immediately, skipping the reset `client.send`. -/

/-- The reset payload of lines 136-141: unconstrained network conditions. -/
def unconstrained : NetworkConditions :=
  { downloadThroughput := -1, uploadThroughput := -1, latency := 0 }

/-- `testWithThrottling` (lines 119-147) as a state-passing function: returns
the outcome (result or propagated error) together with the network conditions
left emulated on the session when control returns. -/
def testWithThrottling
    (analyze : NetworkConditions → Except String PerformanceAnalysis)
    (conditions : NetworkConditions) :
    Except String PerformanceAnalysis × NetworkConditions :=
  match analyze conditions with
  | .error e => (.error e, conditions)
  | .ok analysis =>
      (.ok { analysis with networkConditions := some conditions }, unconstrained)

/-! ### Load orchestrator (`loadTest` / `analyzeLoadTestResults`, lines 152-185
and 370-449)

Each slot of a batch is one `analyzePagePerformance` call, modelled by
`run batch slot : Except String PerformanceAnalysis`.  A rejected slot is
caught individually (`.catch` at lines 168-171): its message, prefixed with
batch and slot index, is pushed onto `errors` and the slot yields `null`
(`none`).  Within a batch the settlement order is modelled as slot order (a
linearization of the concurrent completions).  Line 176 filters the nulls out
of `batchResults` before appending to `results`. -/

/-- `Math.min(...xs)`; the empty case (JS `Infinity`) is never reached — the
sole caller guards on a non-empty list. -/
def listMin : List ℚ → ℚ
  | [] => 0
  | x :: xs => xs.foldl min x

/-- `Math.max(...xs)`; the empty case (JS `-Infinity`) is never reached. -/
def listMax : List ℚ → ℚ
  | [] => 0
  | x :: xs => xs.foldl max x

/-- Value of one slot promise after its `.catch` (lines 168-172): the analysis
on success, `null` on a caught rejection. -/
def slotResult (run : ℕ → ℕ → Except String PerformanceAnalysis)
    (b i : ℕ) : Option PerformanceAnalysis :=
  match run b i with
  | .ok a => some a
  | .error _ => none

/-- Error entry pushed by one slot's `.catch` handler (line 169), if any. -/
def slotError (run : ℕ → ℕ → Except String PerformanceAnalysis)
    (b i : ℕ) : Option String :=
  match run b i with
  | .ok _ => none
  | .error msg => some ("Batch " ++ toString b ++ ", User " ++ toString i ++ ": " ++ msg)

/-- `generateLoadTestRecommendations` (lines 418-449). -/
def generateLoadTestRecommendations (results : List PerformanceAnalysis)
    (errors : List String) : List String :=
  let avgLoad :=
    (results.map (fun r => r.metrics.webVitals.loadComplete.getD 0)).sum /
      (results.length : ℚ)
  (if 5000 < avgLoad then
    ["High average response time under load - consider server scaling"] else []) ++
  (if (results.length : ℚ) * (1 / 10) < (errors.length : ℚ) then
    ["High error rate - check server stability and capacity"] else []) ++
  (if results.length < 10 then
    ["Consider running more iterations for better statistical significance"] else [])

/-- `analyzeLoadTestResults` (lines 370-416).  `results` is the accumulated
(already null-filtered, see line 176) list, typed with `Option` to keep the
function's own `filter(r => r !== null)` (line 374) visible. -/
def analyzeLoadTestResults (results : List (Option PerformanceAnalysis))
    (errors : List String) : LoadTestResults :=
  let validResults := results.filterMap id
  if validResults.length = 0 then
    { summary :=
        { totalRequests := results.length
          successfulRequests := 0
          failedRequests := errors.length
          successRate := 0
          averageResponseTime := 0
          minResponseTime := 0
          maxResponseTime := 0 }
      errors := errors
      recommendations :=
        ["All requests failed - check server capacity and configuration"] }
  else
    let responseTimes := validResults.map (fun r => r.metrics.webVitals.loadComplete.getD 0)
    let avgResponseTime := responseTimes.sum / (responseTimes.length : ℚ)
    { summary :=
        { totalRequests := results.length
          successfulRequests := validResults.length
          failedRequests := errors.length
          successRate := ((validResults.length : ℚ) / (results.length : ℚ)) * 100
          averageResponseTime := avgResponseTime
          minResponseTime := listMin responseTimes
          maxResponseTime := listMax responseTimes }
      errors := errors
      recommendations := generateLoadTestRecommendations validResults errors }

/-- `loadTest` (lines 152-185): the batch loop, with line 176's
`batchResults.filter(r => r !== null)` append and the per-slot error pushes. -/
def loadTest (concurrent iterations : ℕ)
    (run : ℕ → ℕ → Except String PerformanceAnalysis) : LoadTestResults :=
  let acc := (List.range iterations).foldl
    (fun (acc : List (Option PerformanceAnalysis) × List String) b =>
      (acc.1 ++ ((List.range concurrent).map (slotResult run b)).filter Option.isSome,
       acc.2 ++ (List.range concurrent).filterMap (slotError run b)))
    ([], [])
  analyzeLoadTestResults acc.1 acc.2

/-! ### Auxiliary definitions for the statements -/

/-- Replace only the `firstContentfulPaint` vital of a metrics record. -/
def setFCP (m : PerformanceMetrics) (v : Option ℚ) : PerformanceMetrics :=
  { m with webVitals := { m.webVitals with firstContentfulPaint := v } }

/-- Replace only the `largestContentfulPaint` vital of a metrics record. -/
def setLCP (m : PerformanceMetrics) (v : Option ℚ) : PerformanceMetrics :=
  { m with webVitals := { m.webVitals with largestContentfulPaint := v } }

/-- Replace only the `loadComplete` vital of a metrics record. -/
def setLoadComplete (m : PerformanceMetrics) (v : Option ℚ) : PerformanceMetrics :=
  { m with webVitals := { m.webVitals with loadComplete := v } }

/-- Replace the three scored vitals of a metrics record at once. -/
def setVitals (m : PerformanceMetrics) (f l c : ℚ) : PerformanceMetrics :=
  { m with webVitals := { m.webVitals with
      firstContentfulPaint := some f
      largestContentfulPaint := some l
      loadComplete := some c } }

/-- Replace only the `totalResources` count of a metrics record. -/
def setTotalResources (m : PerformanceMetrics) (n : ℕ) : PerformanceMetrics :=
  { m with resources := { m.resources with totalResources := n } }

/-- Threshold table of spec section 4.2, FCP row, written from the spec's
table (design contract to compare the implementation against). -/
def tableFCP (v : ℚ) : ℚ :=
  if v ≤ 1800 then 100 else if v ≤ 3000 then 75 else if v ≤ 4200 then 50 else 25

/-- Threshold table of spec section 4.2, LCP row. -/
def tableLCP (v : ℚ) : ℚ :=
  if v ≤ 2500 then 100 else if v ≤ 4000 then 75 else 25

/-- Threshold table of spec section 4.2, load-complete row. -/
def tableLoad (v : ℚ) : ℚ :=
  if v ≤ 2000 then 100 else if v ≤ 4000 then 75 else if v ≤ 6000 then 50 else 25

/-- Threshold table of spec section 4.2, resource-count row. -/
def tableResources (n : ℕ) : ℚ :=
  if n ≤ 50 then 100 else if n ≤ 100 then 75 else if n ≤ 150 then 50 else 25

/-- The mobile preset of `testMobilePerformance` (lines 198-202):
1.5 Mbps down, 750 Kbps up, 150 ms latency, in bytes per second. -/
def mobileNetworkPreset : NetworkConditions :=
  { downloadThroughput := 196608, uploadThroughput := 96000, latency := 150 }

/-- An analysis pass that rejects (e.g. a navigation failure), whatever the
network conditions. -/
def failingAnalyze : NetworkConditions → Except String PerformanceAnalysis :=
  fun _ => .error "net::ERR_NAME_NOT_RESOLVED"

/-- Metrics with only the load-complete timing observed (1500 ms), an empty
resource set and no memory counters. -/
def metricsLoad1500 : PerformanceMetrics :=
  { webVitals := { loadComplete := some 1500 }
    resources :=
      { totalResources := 0, totalSize := 0
        slowestResource := { name := "", duration := 0 }, resourceTypes := [] }
    memory := none }

/-- A concrete successful analysis record built from `metricsLoad1500`. -/
def analysisLoad1500 : PerformanceAnalysis :=
  { url := "http://example.test"
    timestamp := "2026-01-01T00:00:00.000Z"
    metrics := metricsLoad1500
    scores := calculatePerformanceScores metricsLoad1500
    recommendations :=
      generateRecommendations metricsLoad1500 (calculatePerformanceScores metricsLoad1500) }

/-- An analysis pass that succeeds with `analysisLoad1500`. -/
def succeedingAnalyze : NetworkConditions → Except String PerformanceAnalysis :=
  fun _ => .ok analysisLoad1500

/-- Slot behaviour where slot 0 of each batch succeeds and every other slot
rejects. -/
def runOneFailure : ℕ → ℕ → Except String PerformanceAnalysis := fun _ i =>
  if i = 0 then .ok analysisLoad1500 else .error "net::ERR_CONNECTION_REFUSED"

/-- Slot behaviour where every slot rejects. -/
def runAllFail : ℕ → ℕ → Except String PerformanceAnalysis :=
  fun _ _ => .error "net::ERR_CONNECTION_REFUSED"

/-- The errors list `loadTest` accumulates over `n` batches of `c` slots when
slot `(b, i)` rejects with message `msg b i`: per batch, the `c` prefixed
messages in slot order. -/
def expectedFailErrors (c : ℕ) (msg : ℕ → ℕ → String) : ℕ → List String
  | 0 => []
  | n + 1 => expectedFailErrors c msg n ++
      (List.range c).map
        (fun i => "Batch " ++ toString n ++ ", User " ++ toString i ++ ": " ++ msg n i)

/-! ### Helper lemmas -/

theorem scoreFCP_bounds (o : Option ℚ) : 0 ≤ scoreFCP o ∧ scoreFCP o ≤ 100 := by
  simp only [scoreFCP]
  split_ifs <;> norm_num

theorem scoreLCP_bounds (o : Option ℚ) : 0 ≤ scoreLCP o ∧ scoreLCP o ≤ 100 := by
  simp only [scoreLCP]
  split_ifs <;> norm_num

theorem scoreLoadTime_bounds (o : Option ℚ) :
    0 ≤ scoreLoadTime o ∧ scoreLoadTime o ≤ 100 := by
  simp only [scoreLoadTime]
  split_ifs <;> norm_num

theorem scoreResources_bounds (n : ℕ) :
    0 ≤ scoreResources n ∧ scoreResources n ≤ 100 := by
  simp only [scoreResources]
  split_ifs <;> norm_num

theorem list_sum_nonneg {l : List ℚ} (h : ∀ x ∈ l, 0 ≤ x) : 0 ≤ l.sum := by
  induction l with
  | nil => simp
  | cons x xs ih =>
    have hx := h x (List.mem_cons_self x xs)
    have hxs := ih (fun y hy => h y (List.mem_cons_of_mem _ hy))
    simp only [List.sum_cons]
    linarith

theorem list_sum_le_hundred_mul {l : List ℚ} (h : ∀ x ∈ l, x ≤ 100) :
    l.sum ≤ 100 * (l.length : ℚ) := by
  induction l with
  | nil => simp
  | cons x xs ih =>
    have hx := h x (List.mem_cons_self x xs)
    have hxs := ih (fun y hy => h y (List.mem_cons_of_mem _ hy))
    simp only [List.sum_cons, List.length_cons]
    push_cast
    linarith

theorem mean_bounds {l : List ℚ} (h : ∀ x ∈ l, 0 ≤ x ∧ x ≤ 100) (hne : l ≠ []) :
    0 ≤ l.sum / (l.length : ℚ) ∧ l.sum / (l.length : ℚ) ≤ 100 := by
  have hlen : 0 < (l.length : ℚ) := by
    have := List.length_pos.2 hne
    exact_mod_cast this
  constructor
  · exact div_nonneg (list_sum_nonneg (fun x hx => (h x hx).1)) hlen.le
  · rw [div_le_iff₀ hlen]
    have := list_sum_le_hundred_mul (fun x hx => (h x hx).2)
    linarith

/-! ### Claim theorems -/

/-- Claim C1, counterexample: `testWithThrottling` does NOT restore
unconstrained network conditions when the analysis pass throws — there is no
try/finally around the analysis `await` (lines 133-141), so on a rejection the
reset `client.send` is skipped and the session keeps the throttled
conditions. -/
theorem testWithThrottling_keeps_throttling_on_error :
    (testWithThrottling failingAnalyze mobileNetworkPreset).2 ≠ unconstrained := by
  decide

/-- Claim C1, amended: the network conditions applied by `testWithThrottling`
are restored to unconstrained only on the success path; when the analysis pass
completes without throwing, the session is left unconstrained and the result
carries the applied conditions. -/
theorem testWithThrottling_restores_on_success
    (analyze : NetworkConditions → Except String PerformanceAnalysis)
    (conditions : NetworkConditions) (a : PerformanceAnalysis)
    (h : analyze conditions = .ok a) :
    (testWithThrottling analyze conditions).2 = unconstrained := by
  simp [testWithThrottling, h]

/-- Witness for the amended C1 theorem at a concrete succeeding analysis. -/
theorem testWithThrottling_restores_on_success_witness :
    (testWithThrottling succeedingAnalyze mobileNetworkPreset).2 = unconstrained :=
  testWithThrottling_restores_on_success succeedingAnalyze mobileNetworkPreset
    analysisLoad1500 rfl

/-- Claim C2, failing input: with `concurrent = 2, iterations = 1` and one of
the two slots rejecting, `summary.totalRequests` is 1, not `2 * 1` — line 176
filters rejected slots out of `results` before `analyzeLoadTestResults` counts
`results.length`, so `totalRequests` counts only successful slots. -/
theorem loadTest_totalRequests_counts_only_successes :
    (loadTest 2 1 runOneFailure).summary.totalRequests = 1 ∧
    (loadTest 2 1 runOneFailure).summary.totalRequests ≠ 2 * 1 := by
  decide

/-- Claim C3, failing input: with `concurrent = 2, iterations = 1`, one
successful slot (load-complete 1500 ms) and one rejected slot, the claimed
success rate is `100 * 1 / (2 * 1) = 50`, but the code returns 100 — the
null-filtering of line 176 makes `validResults` and `results` coincide, so the
ratio is successes over successes.  The average/min/max of the successful
slots' load-complete times (1500 here) match the claim. -/
theorem loadTest_successRate_ignores_failures :
    (loadTest 2 1 runOneFailure).summary.successRate = 100 ∧
    (loadTest 2 1 runOneFailure).summary.successRate ≠ 100 * 1 / (2 * 1) ∧
    (loadTest 2 1 runOneFailure).summary.averageResponseTime = 1500 ∧
    (loadTest 2 1 runOneFailure).summary.minResponseTime = 1500 ∧
    (loadTest 2 1 runOneFailure).summary.maxResponseTime = 1500 := by
  have hres : loadTest 2 1 runOneFailure =
      analyzeLoadTestResults [some analysisLoad1500]
        ["Batch 0, User 1: net::ERR_CONNECTION_REFUSED"] := rfl
  have hlc : analysisLoad1500.metrics.webVitals.loadComplete = some 1500 := rfl
  rw [hres]
  norm_num [analyzeLoadTestResults, hlc, listMin, listMax,
    List.filterMap_cons, List.filterMap_nil]

/-- Claim C8: when no timing entry ever fires (no observer callback), the
metrics capture resolves at the fixed 5000 ms fallback — within the 5-second
ceiling, not indefinitely — with empty WebVitals (all optional fields absent)
and zeroed ResourceMetrics (no resources, zero size, empty slowest resource,
empty type map). -/
theorem collectMetrics_no_entries_resolves_fallback
    (resources : List ResourceEntry) (memory : Option MemorySnapshot) :
    (collectMetrics ⟨[], resources, memory⟩).1 ≤ 5000 ∧
    (collectMetrics ⟨[], resources, memory⟩).2.webVitals =
      { firstContentfulPaint := none, largestContentfulPaint := none
        domContentLoaded := none, loadComplete := none, firstByte := none } ∧
    (collectMetrics ⟨[], resources, memory⟩).2.resources.totalResources = 0 ∧
    (collectMetrics ⟨[], resources, memory⟩).2.resources.totalSize = 0 ∧
    (collectMetrics ⟨[], resources, memory⟩).2.resources.slowestResource =
      { name := "", duration := 0 } ∧
    (collectMetrics ⟨[], resources, memory⟩).2.resources.resourceTypes = [] ∧
    (collectMetrics ⟨[], resources, memory⟩).2.memory = none :=
  ⟨le_refl _, rfl, rfl, rfl, rfl, rfl, rfl⟩

/-- Claim C4: the overall score is the mean of exactly the non-zero component
scores (so a component left at 0 by an absent metric is excluded), it is 0 when
that set is empty, and it always lies in [0, 100]. -/
theorem overall_mean_of_nonzero_scores (m : PerformanceMetrics) :
    ((calculatePerformanceScores m).overall =
      (let nz := [(calculatePerformanceScores m).firstContentfulPaint,
                  (calculatePerformanceScores m).largestContentfulPaint,
                  (calculatePerformanceScores m).loadTime,
                  (calculatePerformanceScores m).resourceEfficiency].filter
                    (fun s => decide (0 < s))
       if nz.length = 0 then 0 else nz.sum / (nz.length : ℚ))) ∧
    0 ≤ (calculatePerformanceScores m).overall ∧
    (calculatePerformanceScores m).overall ≤ 100 := by
  have hzero : ¬ (0 : ℚ) < 0 := lt_irrefl 0
  have hfilter :
      [(0 : ℚ), scoreFCP m.webVitals.firstContentfulPaint,
        scoreLCP m.webVitals.largestContentfulPaint,
        scoreLoadTime m.webVitals.loadComplete,
        scoreResources m.resources.totalResources].filter (fun s => decide (0 < s)) =
      [scoreFCP m.webVitals.firstContentfulPaint,
        scoreLCP m.webVitals.largestContentfulPaint,
        scoreLoadTime m.webVitals.loadComplete,
        scoreResources m.resources.totalResources].filter (fun s => decide (0 < s)) := by
    simp [List.filter_cons]
  have hov : (calculatePerformanceScores m).overall =
      (let vs := [(0 : ℚ), scoreFCP m.webVitals.firstContentfulPaint,
          scoreLCP m.webVitals.largestContentfulPaint,
          scoreLoadTime m.webVitals.loadComplete,
          scoreResources m.resources.totalResources].filter (fun s => decide (0 < s))
       if 0 < vs.length then vs.sum / (vs.length : ℚ) else 0) := rfl
  have hcf : (calculatePerformanceScores m).firstContentfulPaint =
      scoreFCP m.webVitals.firstContentfulPaint := rfl
  have hcl : (calculatePerformanceScores m).largestContentfulPaint =
      scoreLCP m.webVitals.largestContentfulPaint := rfl
  have hct : (calculatePerformanceScores m).loadTime =
      scoreLoadTime m.webVitals.loadComplete := rfl
  have hcr : (calculatePerformanceScores m).resourceEfficiency =
      scoreResources m.resources.totalResources := rfl
  set nzl := [scoreFCP m.webVitals.firstContentfulPaint,
      scoreLCP m.webVitals.largestContentfulPaint,
      scoreLoadTime m.webVitals.loadComplete,
      scoreResources m.resources.totalResources].filter (fun s => decide (0 < s)) with hnzl
  have hov2 : (calculatePerformanceScores m).overall =
      if 0 < nzl.length then nzl.sum / (nzl.length : ℚ) else 0 := by
    rw [hov]
    simp only [hfilter, hnzl]
  have hbounds : ∀ x ∈ nzl, 0 ≤ x ∧ x ≤ 100 := by
    intro x hx
    have hx4 := List.mem_of_mem_filter hx
    simp only [List.mem_cons, List.not_mem_nil, or_false] at hx4
    rcases hx4 with h | h | h | h
    · exact h ▸ scoreFCP_bounds _
    · exact h ▸ scoreLCP_bounds _
    · exact h ▸ scoreLoadTime_bounds _
    · exact h ▸ scoreResources_bounds _
  refine ⟨?_, ?_⟩
  · rw [hov2, hcf, hcl, hct, hcr, ← hnzl]
    rcases Nat.eq_zero_or_pos nzl.length with h0 | hpos
    · simp [h0]
    · simp [hpos, Nat.pos_iff_ne_zero.1 hpos]
  · rw [hov2]
    rcases Nat.eq_zero_or_pos nzl.length with h0 | hpos
    · simp [h0]
    · have hne : nzl ≠ [] := by
        intro h
        rw [h] at hpos
        simp at hpos
      have := mean_bounds hbounds hne
      simp only [hpos, if_pos]
      exact this

/-- Claim C5: for metrics identical except in the first-contentful-paint time,
with both FCP values observed (positive — the code's truthiness guard treats a
0 as unobserved), the smaller FCP time never gets a smaller FCP score. -/
theorem fcp_score_monotone (m : PerformanceMetrics) (v1 v2 : ℚ)
    (h1 : 0 < v1) (h12 : v1 ≤ v2) :
    (calculatePerformanceScores (setFCP m (some v2))).firstContentfulPaint ≤
      (calculatePerformanceScores (setFCP m (some v1))).firstContentfulPaint := by
  have h2 : 0 < v2 := lt_of_lt_of_le h1 h12
  show scoreFCP (some v2) ≤ scoreFCP (some v1)
  simp only [scoreFCP, truthy, Option.getD_some, bne_iff_ne, ne_eq, h1.ne',
    h2.ne', not_false_eq_true, if_true]
  split_ifs <;> linarith

/-- Witness for the C5 theorem at FCP times 1000 ms and 2500 ms. -/
theorem fcp_score_monotone_witness :
    (calculatePerformanceScores (setFCP fallbackMetrics (some 2500))).firstContentfulPaint ≤
      (calculatePerformanceScores (setFCP fallbackMetrics (some 1000))).firstContentfulPaint :=
  fcp_score_monotone fallbackMetrics 1000 2500 (by norm_num) (by norm_num)

/-- Claim C6: the score calculator reproduces the spec's threshold table
exactly on observed (positive) timing values, the resource-count row
unconditionally, and in particular a resource count of exactly 50 scores 100
while 51 scores 75. -/
theorem scores_match_threshold_table (m : PerformanceMetrics) (fv lv cv : ℚ)
    (hf : 0 < fv) (hl : 0 < lv) (hc : 0 < cv) :
    (calculatePerformanceScores (setVitals m fv lv cv)).firstContentfulPaint = tableFCP fv ∧
    (calculatePerformanceScores (setVitals m fv lv cv)).largestContentfulPaint = tableLCP lv ∧
    (calculatePerformanceScores (setVitals m fv lv cv)).loadTime = tableLoad cv ∧
    (calculatePerformanceScores m).resourceEfficiency =
      tableResources m.resources.totalResources ∧
    (calculatePerformanceScores (setTotalResources m 50)).resourceEfficiency = 100 ∧
    (calculatePerformanceScores (setTotalResources m 51)).resourceEfficiency = 75 := by
  refine ⟨?_, ?_, ?_, rfl, rfl, rfl⟩
  · show scoreFCP (some fv) = tableFCP fv
    simp only [scoreFCP, tableFCP, truthy, Option.getD_some, bne_iff_ne, ne_eq,
      hf.ne', not_false_eq_true, if_true]
  · show scoreLCP (some lv) = tableLCP lv
    simp only [scoreLCP, tableLCP, truthy, Option.getD_some, bne_iff_ne, ne_eq,
      hl.ne', not_false_eq_true, if_true]
  · show scoreLoadTime (some cv) = tableLoad cv
    simp only [scoreLoadTime, tableLoad, truthy, Option.getD_some, bne_iff_ne, ne_eq,
      hc.ne', not_false_eq_true, if_true]

/-- Witness for the C6 theorem at the band edges FCP 1800, LCP 2500, load 2000. -/
theorem scores_match_threshold_table_witness :
    (calculatePerformanceScores (setVitals fallbackMetrics 1800 2500 2000)).firstContentfulPaint =
      tableFCP 1800 ∧
    (calculatePerformanceScores (setVitals fallbackMetrics 1800 2500 2000)).largestContentfulPaint =
      tableLCP 2500 ∧
    (calculatePerformanceScores (setVitals fallbackMetrics 1800 2500 2000)).loadTime =
      tableLoad 2000 ∧
    (calculatePerformanceScores fallbackMetrics).resourceEfficiency =
      tableResources fallbackMetrics.resources.totalResources ∧
    (calculatePerformanceScores (setTotalResources fallbackMetrics 50)).resourceEfficiency = 100 ∧
    (calculatePerformanceScores (setTotalResources fallbackMetrics 51)).resourceEfficiency = 75 :=
  scores_match_threshold_table fallbackMetrics 1800 2500 2000
    (by norm_num) (by norm_num) (by norm_num)

/-- Claim C9: an observed timing value of exactly 0 ms is falsy, so the score
calculator treats the metric as unobserved — the component score stays 0 and
the overall mean is the same as if the field were absent (for FCP, LCP and
load-complete alike). -/
theorem zero_timing_treated_as_unobserved (m : PerformanceMetrics) :
    (calculatePerformanceScores (setFCP m (some 0))).firstContentfulPaint = 0 ∧
    (calculatePerformanceScores (setFCP m (some 0))).overall =
      (calculatePerformanceScores (setFCP m none)).overall ∧
    (calculatePerformanceScores (setLCP m (some 0))).largestContentfulPaint = 0 ∧
    (calculatePerformanceScores (setLCP m (some 0))).overall =
      (calculatePerformanceScores (setLCP m none)).overall ∧
    (calculatePerformanceScores (setLoadComplete m (some 0))).loadTime = 0 ∧
    (calculatePerformanceScores (setLoadComplete m (some 0))).overall =
      (calculatePerformanceScores (setLoadComplete m none)).overall :=
  ⟨rfl, rfl, rfl, rfl, rfl, rfl⟩

/-- Claim C10: when the FCP (resp. LCP) vital is absent its score stays 0,
which satisfies the `< 75` gate, so the recommendation generator still emits
the corresponding optimization advice for a metric that was never measured. -/
theorem absent_metric_still_recommended (m : PerformanceMetrics) :
    "Optimize First Contentful Paint by reducing render-blocking resources" ∈
      generateRecommendations (setFCP m none)
        (calculatePerformanceScores (setFCP m none)) ∧
    "Improve Largest Contentful Paint by optimizing main content loading" ∈
      generateRecommendations (setLCP m none)
        (calculatePerformanceScores (setLCP m none)) := by
  constructor
  · have h : (calculatePerformanceScores (setFCP m none)).firstContentfulPaint = 0 := rfl
    simp [generateRecommendations, h]
  · have h : (calculatePerformanceScores (setLCP m none)).largestContentfulPaint = 0 := rfl
    simp [generateRecommendations, h]

theorem filter_slotResult_allfail
    (run : ℕ → ℕ → Except String PerformanceAnalysis) (msg : ℕ → ℕ → String)
    (hrun : ∀ b i, run b i = .error (msg b i)) (b : ℕ) (l : List ℕ) :
    (l.map (slotResult run b)).filter Option.isSome = [] := by
  induction l with
  | nil => rfl
  | cons x xs ih => simp [slotResult, hrun, ih]

theorem filterMap_slotError_allfail
    (run : ℕ → ℕ → Except String PerformanceAnalysis) (msg : ℕ → ℕ → String)
    (hrun : ∀ b i, run b i = .error (msg b i)) (b : ℕ) (l : List ℕ) :
    l.filterMap (slotError run b) =
      l.map (fun i => "Batch " ++ toString b ++ ", User " ++ toString i ++ ": " ++ msg b i) := by
  induction l with
  | nil => rfl
  | cons x xs ih => simp [slotError, hrun, ih, List.filterMap_cons]

theorem loadTest_fold_allfail (c : ℕ)
    (run : ℕ → ℕ → Except String PerformanceAnalysis) (msg : ℕ → ℕ → String)
    (hrun : ∀ b i, run b i = .error (msg b i)) :
    ∀ (n : ℕ) (rs : List (Option PerformanceAnalysis)) (es : List String),
    (List.range n).foldl
      (fun (acc : List (Option PerformanceAnalysis) × List String) b =>
        (acc.1 ++ ((List.range c).map (slotResult run b)).filter Option.isSome,
         acc.2 ++ (List.range c).filterMap (slotError run b)))
      (rs, es) = (rs, es ++ expectedFailErrors c msg n) := by
  intro n
  induction n with
  | zero =>
    intro rs es
    simp [expectedFailErrors]
  | succ n ih =>
    intro rs es
    rw [List.range_succ, List.foldl_append, ih rs es]
    simp only [List.foldl_cons, List.foldl_nil]
    rw [filter_slotResult_allfail run msg hrun n (List.range c),
      filterMap_slotError_allfail run msg hrun n (List.range c)]
    simp [expectedFailErrors]

theorem expectedFailErrors_length (c : ℕ) (msg : ℕ → ℕ → String) (n : ℕ) :
    (expectedFailErrors c msg n).length = n * c := by
  induction n with
  | zero => simp [expectedFailErrors]
  | succ n ih => simp [expectedFailErrors, ih, Nat.succ_mul]

/-- Claim C7, counterexample: in the all-slots-throw scenario the summary's
numeric fields are NOT all zero — `failedRequests` is the error count
`concurrent * iterations` (here 1), not 0. -/
theorem loadTest_allfail_failedRequests_nonzero :
    (loadTest 1 1 runAllFail).summary.failedRequests ≠ 0 := by
  decide

/-- Claim C7, amended: `loadTest` catches every slot rejection individually
(never throwing), records each error message prefixed with its batch and slot
index, and when every slot across all batches throws it returns a
`LoadTestResults` whose `successRate`, `totalRequests`, `successfulRequests`
and response-time fields are all zero (while `failedRequests` equals the
`iterations * concurrent` recorded errors), with the all-requests-failed
recommendation and no division by zero. -/
theorem loadTest_allfail_returns_zeroed_summary (c n : ℕ)
    (run : ℕ → ℕ → Except String PerformanceAnalysis) (msg : ℕ → ℕ → String)
    (hrun : ∀ b i, run b i = .error (msg b i)) :
    (loadTest c n run).errors = expectedFailErrors c msg n ∧
    (loadTest c n run).summary.totalRequests = 0 ∧
    (loadTest c n run).summary.successfulRequests = 0 ∧
    (loadTest c n run).summary.failedRequests = n * c ∧
    (loadTest c n run).summary.successRate = 0 ∧
    (loadTest c n run).summary.averageResponseTime = 0 ∧
    (loadTest c n run).summary.minResponseTime = 0 ∧
    (loadTest c n run).summary.maxResponseTime = 0 ∧
    (loadTest c n run).recommendations =
      ["All requests failed - check server capacity and configuration"] := by
  have hload : loadTest c n run =
      analyzeLoadTestResults [] (expectedFailErrors c msg n) := by
    unfold loadTest
    rw [loadTest_fold_allfail c run msg hrun n [] []]
    simp
  rw [hload]
  simp [analyzeLoadTestResults, expectedFailErrors_length]

/-- Witness for the amended C7 theorem at one batch of one always-failing
slot. -/
theorem loadTest_allfail_returns_zeroed_summary_witness :
    (loadTest 1 1 runAllFail).errors =
      expectedFailErrors 1 (fun _ _ => "net::ERR_CONNECTION_REFUSED") 1 ∧
    (loadTest 1 1 runAllFail).summary.totalRequests = 0 ∧
    (loadTest 1 1 runAllFail).summary.successfulRequests = 0 ∧
    (loadTest 1 1 runAllFail).summary.failedRequests = 1 * 1 ∧
    (loadTest 1 1 runAllFail).summary.successRate = 0 ∧
    (loadTest 1 1 runAllFail).summary.averageResponseTime = 0 ∧
    (loadTest 1 1 runAllFail).summary.minResponseTime = 0 ∧
    (loadTest 1 1 runAllFail).summary.maxResponseTime = 0 ∧
    (loadTest 1 1 runAllFail).recommendations =
      ["All requests failed - check server capacity and configuration"] :=
  loadTest_allfail_returns_zeroed_summary 1 1 runAllFail
    (fun _ _ => "net::ERR_CONNECTION_REFUSED") (fun _ _ => rfl)
